import Mathlib

/-!
Verification development for the credential and session lifecycle core of the
Enrollify (UniApply Hub) backend.  The JavaScript source is shallowly embedded:
JS strings become `List Char`, Mongoose documents become records plus an
explicit modified-field flag, thrown errors become `Except` values, and the
`crypto` randomness consumed by session-id / password generation becomes an
explicit tape of natural numbers.  External libraries (bcrypt, jsonwebtoken)
are modelled at their observable interface: bcrypt comparison is an oracle
parameter, and a signed JWT is a record carrying its payload, signing secret,
audience and an expiry flag, so that verification is the field comparison the
library performs.
-/

namespace Enrollify

deriving instance DecidableEq for Except

/-- JS strings are modelled as lists of characters. -/
abbrev Str := List Char

/-- ASCII uppercase test, the JS regex `[A-Z]`. -/
def isUpperC (c : Char) : Bool := 'A' ≤ c && c ≤ 'Z'

/-- ASCII lowercase test, the JS regex `[a-z]`. -/
def isLowerC (c : Char) : Bool := 'a' ≤ c && c ≤ 'z'

/-- Digit test, the JS regex `\d`. -/
def isDigitC (c : Char) : Bool := '0' ≤ c && c ≤ '9'

/-- The special characters of the validator regex in
`passwordService.validatePasswordStrength` (part_000). -/
def specialChars : Str :=
  ['!', '@', '#', '$', '%', '^', '&', '*', '(', ')', ',', '.', '?', '"',
   ':', '{', '}', '|', '<', '>']

/-- Membership in the validator's special-character class. -/
def isSpecialC (c : Char) : Bool := specialChars.contains c

/-- ASCII lower-casing of one character (JS `toLowerCase` restricted to the
ASCII range used by the source). -/
def lowerChar (c : Char) : Char :=
  if isUpperC c then Char.ofNat (c.toNat + 32) else c

/-- JS `String.prototype.toLowerCase`. -/
def lowerStr (s : Str) : Str := s.map lowerChar

/-- Whitespace test used by JS `trim`. -/
def isWsC (c : Char) : Bool := c == ' ' || c == '\t' || c == '\n' || c == '\r'

/-- JS `String.prototype.trim`. -/
def trimStr (s : Str) : Str :=
  ((s.dropWhile isWsC).reverse.dropWhile isWsC).reverse

/-- `leadsWith needle hay` is true when `needle` occurs at the start of
`hay`. -/
def leadsWith : Str → Str → Bool
  | [], _ => true
  | _ :: _, [] => false
  | a :: as, b :: bs => a == b && leadsWith as bs

/-- JS `String.prototype.includes`: `containsSeq needle hay` is true when
`needle` occurs contiguously inside `hay`. -/
def containsSeq (needle : Str) : Str → Bool
  | [] => needle.isEmpty
  | b :: bs => leadsWith needle (b :: bs) || containsSeq needle bs

/-- The JS regex `(.)\1{3,}`: four or more consecutive identical
characters. -/
def hasRun4 : Str → Bool
  | a :: b :: c :: d :: rest =>
      (a == b && a == c && a == d) || hasRun4 (b :: c :: d :: rest)
  | _ => false

/-- The forbidden-pattern loop of `validatePasswordStrength`: the first
pattern is `(.)\1{3,}` on the raw password, the second is the
case-insensitive regex `123456|654321|password|qwerty`. -/
def forbiddenPattern (pw : Str) : Bool :=
  hasRun4 pw ||
    (let lp := lowerStr pw
     containsSeq ("123456".toList) lp || containsSeq ("654321".toList) lp ||
       containsSeq ("password".toList) lp || containsSeq ("qwerty".toList) lp)

/-- The `userInfo` context object accepted by `validatePasswordStrength`;
absent JS properties are `none`. -/
structure UserInfo where
  email : Option Str
  firstName : Option Str
  lastName : Option Str
deriving DecidableEq, Repr

/-- The default empty context `{}`. -/
def noInfo : UserInfo := ⟨none, none, none⟩

/-- Errors pushed onto `result.errors` by `validatePasswordStrength`.  The
`notString` branch of the source is unreachable here because passwords are
embedded as strings. -/
inductive PwErr where
  | required
  | tooShort
  | tooLong
  | noUpper
  | noLower
  | noNumber
  | forbiddenCommon
deriving DecidableEq, Repr

/-- Warnings pushed onto `result.warnings`. -/
inductive PwWarn where
  | emailPart
  | firstNamePart
  | lastNamePart
deriving DecidableEq, Repr

/-- Suggestions pushed onto `result.suggestions`. -/
inductive PwSugg where
  | longerMixed
  | addSpecial
  | use12Plus
deriving DecidableEq, Repr

/-- The guard `userInfo.email && password.toLowerCase().includes(
userInfo.email.split('@')[0].toLowerCase())` of the −10 penalty. -/
def emailPenaltyHit (pw : Str) (info : UserInfo) : Bool :=
  match info.email with
  | some e =>
      !e.isEmpty &&
        containsSeq (lowerStr (e.takeWhile (fun c => c != '@'))) (lowerStr pw)
  | none => false

/-- The guard of the −5 first/last-name penalties: the (truthy) name occurs
case-insensitively inside the password. -/
def nameHit (pw : Str) (name : Option Str) : Bool :=
  match name with
  | some n => !n.isEmpty && containsSeq (lowerStr n) (lowerStr pw)
  | none => false

/-- The accumulated score of `validatePasswordStrength` before clamping.
Addition order is irrelevant over `Int`; the instantiated configuration of
the singleton `PasswordService` is inlined (`requireSpecialChars` is
`false`, so no error is ever pushed for missing specials, while presence
still scores +10).  The diversity test `unique >= length * 0.7` is written
as the exact rational comparison `10 * unique ≥ 7 * length`, which agrees
with the JS float comparison at every integer point. -/
def rawScore (pw : Str) (info : UserInfo) : Int :=
  (if pw.length ≥ 8 then 20 else 0)
    + (if pw.any isUpperC then 15 else 0)
    + (if pw.any isLowerC then 15 else 0)
    + (if pw.any isDigitC then 15 else 0)
    + (if pw.any isSpecialC then 10 else 0)
    - (if emailPenaltyHit pw info then 10 else 0)
    - (if nameHit pw info.firstName then 5 else 0)
    - (if nameHit pw info.lastName then 5 else 0)
    + (if pw.length ≥ 12 then 10 else 0)
    + (if pw.length ≥ 16 then 10 else 0)
    + (if 10 * pw.dedup.length ≥ 7 * pw.length then 5 else 0)

/-- The errors accumulated by `validatePasswordStrength` for a non-empty
password, in source order. -/
def strengthErrors (pw : Str) : List PwErr :=
  (if pw.length < 8 then [PwErr.tooShort] else [])
    ++ (if pw.length > 128 then [PwErr.tooLong] else [])
    ++ (if pw.any isUpperC then [] else [PwErr.noUpper])
    ++ (if pw.any isLowerC then [] else [PwErr.noLower])
    ++ (if pw.any isDigitC then [] else [PwErr.noNumber])
    ++ (if forbiddenPattern pw then [PwErr.forbiddenCommon] else [])

/-- The result object of `validatePasswordStrength`. -/
structure StrengthResult where
  isValid : Bool
  score : Int
  errors : List PwErr
  warnings : List PwWarn
  suggestions : List PwSugg
deriving DecidableEq, Repr

/-- `passwordService.validatePasswordStrength` (part_000 lines 95–206).
The empty password takes the early-return branch; otherwise errors, the
clamped score, warnings and suggestions are computed and
`isValid = errors.length === 0 && score >= 60`. -/
def validatePasswordStrength (pw : Str) (info : UserInfo) : StrengthResult :=
  if pw.isEmpty then
    { isValid := false, score := 0, errors := [PwErr.required],
      warnings := [], suggestions := [] }
  else
    let errs := strengthErrors pw
    let score : Int := max 0 (min 100 (rawScore pw info))
    let warns :=
      (if emailPenaltyHit pw info then [PwWarn.emailPart] else [])
        ++ (if nameHit pw info.firstName then [PwWarn.firstNamePart] else [])
        ++ (if nameHit pw info.lastName then [PwWarn.lastNamePart] else [])
    let suggs :=
      (if score < 60 then [PwSugg.longerMixed] else [])
        ++ (if pw.any isSpecialC then [] else [PwSugg.addSpecial])
        ++ (if pw.length < 12 then [PwSugg.use12Plus] else [])
    { isValid := errs.isEmpty && decide (60 ≤ score),
      score := score, errors := errs, warnings := warns, suggestions := suggs }

/-! ### Secure password generation (part_000 lines 213–284)

The `crypto.randomInt` calls are modelled by an explicit tape
`tape : Nat → Nat`; the k-th call reads `tape k` and reduces it modulo the
requested bound, so every random outcome of the source corresponds to some
tape.  Options are the defaults used by the spec's property
(`generate({length:16})`): all four classes included, `excludeSimilar`
true, no custom charset. -/

/-- Lowercase charset with similar-looking characters excluded. -/
def genLower : Str := "abcdefghjkmnpqrstuvwxyz".toList

/-- Uppercase charset with similar-looking characters excluded. -/
def genUpper : Str := "ABCDEFGHJKMNPQRSTUVWXYZ".toList

/-- Digit charset with similar-looking characters excluded. -/
def genDigits : Str := "23456789".toList

/-- Special-character charset of the generator (identical with and without
`excludeSimilar`). -/
def genSpecials : Str := "!@#$%^&*()_+-=[]\x7b\x7d|;:,.<>?".toList

/-- The combined charset used to fill the remaining positions. -/
def genCharset : Str := genLower ++ genUpper ++ genDigits ++ genSpecials

/-- One swap step of the source's Fisher–Yates loop:
`[arr[i], arr[j]] = [arr[j], arr[i]]`. -/
def swapL (l : Str) (i j : Nat) : Str :=
  (l.set i (l.getD j 'a')).set j (l.getD i 'a')

/-- The Fisher–Yates loop: `i` runs from `l.length - 1` down to `1`, and the
k-th iteration draws `j = randomInt(i + 1)` from tape position `off + k`. -/
def fisherYates (tape : Nat → Nat) (off : Nat) (l : Str) : Str :=
  (List.range (l.length - 1)).foldl
    (fun acc k =>
      let i := l.length - 1 - k
      let j := tape (off + k) % (i + 1)
      swapL acc i j)
    l

/-- The `requiredChars` array after the four guaranteed picks, one per
requested class (tape positions 0–3). -/
def genRequiredChars (tape : Nat → Nat) : Str :=
  [genLower.getD (tape 0 % genLower.length) 'a',
   genUpper.getD (tape 1 % genUpper.length) 'a',
   genDigits.getD (tape 2 % genDigits.length) 'a',
   genSpecials.getD (tape 3 % genSpecials.length) 'a']

/-- The filling loop: positions 4 to `length - 1` are drawn from the
combined charset (tape positions 4 to `length - 1`). -/
def genFills (tape : Nat → Nat) (length : Nat) : Str :=
  (List.range (length - 4)).map
    (fun k => genCharset.getD (tape (4 + k) % genCharset.length) 'a')

/-- `passwordService.generateSecurePassword` with default options: length
guard, one guaranteed character per class, fills from the combined charset,
then the Fisher–Yates shuffle (tape positions `length` onward).  The length
guard throw becomes `Except.error`. -/
def generateSecurePassword (tape : Nat → Nat) (length : Nat) :
    Except Unit Str :=
  if length < 8 || length > 128 then Except.error ()
  else
    Except.ok
      (fisherYates tape length (genRequiredChars tape ++ genFills tape length))

/-! ### Password verification over raw JS values (part_000 lines 71–87)

`verifyPassword` receives arbitrary JS values; the relevant JS dynamics
(truthiness and `typeof`) are embedded in `JsVal`.  The bcrypt library is an
oracle that may either answer or fault. -/

/-- A JS runtime value as passed to `passwordService.verifyPassword`. -/
inductive JsVal where
  | str (s : Str)
  | num (n : Int)
  | boolean (b : Bool)
  | undef
  | nullv
deriving DecidableEq, Repr

/-- JS truthiness for the embedded values. -/
def truthy : JsVal → Bool
  | JsVal.str s => !s.isEmpty
  | JsVal.num n => decide (n ≠ 0)
  | JsVal.boolean b => b
  | JsVal.undef => false
  | JsVal.nullv => false

/-- The JS test `typeof v === 'string'`. -/
def isStringVal : JsVal → Bool
  | JsVal.str _ => true
  | _ => false

/-- Projection of a string value (only read under the `typeof` guard). -/
def strOf : JsVal → Str
  | JsVal.str s => s
  | _ => []

/-- A fault raised by the bcrypt library. -/
inductive BcryptErr where
  | fault
deriving DecidableEq, Repr

/-- `passwordService.verifyPassword`: falsy arguments and non-string
arguments return `false`; a library fault is caught and also yields
`false`, so only a boolean ever crosses the boundary. -/
def verifyPassword (compare : Str → Str → Except BcryptErr Bool)
    (password hash : JsVal) : Bool :=
  if !truthy password || !truthy hash then false
  else if !isStringVal password || !isStringVal hash then false
  else
    match compare (strOf password) (strOf hash) with
    | Except.ok b => b
    | Except.error _ => false

/-- `userSchema.methods.verifyPassword` (part_004 lines 374–384): the
candidate and the stored hash are strings (possibly absent, embedded as
empty); falsy arguments and library faults return `false`. -/
def userVerifyPassword (compare : Str → Str → Except BcryptErr Bool)
    (candidate storedHash : Str) : Bool :=
  if candidate.isEmpty || storedHash.isEmpty then false
  else
    match compare candidate storedHash with
    | Except.ok b => b
    | Except.error _ => false

/-! ### Accounts, the user-record store and the pre-save hashing hook

The external user-record store is a list of accounts searched by id or by
(normalised) email, as `User.findById` / `User.findByEmail` do.  A loaded
Mongoose document is an account plus the `isModified('passwordHash')` flag;
`save` runs the pre-save hook of part_004 lines 354–365, which re-hashes the
`passwordHash` field only when that flag is set.  Advisory timestamp fields
(`lastLoginAt`, admin activity timestamps) are outside the claims and are
omitted. -/

/-- A credential record of the user store. -/
structure Account where
  id : Nat
  email : Str
  passwordHash : Str
  sessionId : Option Str
deriving DecidableEq, Repr

/-- `Model.findById`. -/
def findById (s : List Account) (i : Nat) : Option Account :=
  s.find? (fun u => u.id == i)

/-- `User.findByEmail` (part_004 lines 450–452): exact match against the
lower-cased, trimmed login identifier. -/
def findByEmail (s : List Account) (e : Str) : Option Account :=
  s.find? (fun u => u.email == lowerStr (trimStr e))

/-- Persisting an account: the stored record with the same id is replaced. -/
def saveAccount (s : List Account) (a : Account) : List Account :=
  s.map (fun v => if v.id = a.id then a else v)

/-- A loaded Mongoose document: the record plus the
`isModified('passwordHash')` dirty flag. -/
structure UserDoc where
  acc : Account
  passwordHashModified : Bool
deriving DecidableEq, Repr

/-- A document freshly loaded from the store has no modified fields. -/
def loadDoc (a : Account) : UserDoc := ⟨a, false⟩

/-- The pre-save middleware of `userSchema` (part_004 lines 354–365): the
password field is run through bcrypt only if it was modified. -/
def userPreSaveHook (hashFn : Str → Str) (d : UserDoc) : Account :=
  if d.passwordHashModified then
    { d.acc with passwordHash := hashFn d.acc.passwordHash }
  else d.acc

/-- `document.save()`: the pre-save hook runs, then the record is
persisted. -/
def saveDoc (hashFn : Str → Str) (s : List Account) (d : UserDoc) :
    List Account :=
  saveAccount s (userPreSaveHook hashFn d)

/-- `user.generateSessionId()` (part_004 lines 443–447): a fresh 32-byte hex
nonce is assigned to `sessionId`; the randomness is the explicit `nonce`
argument.  The `passwordHash` dirty flag is untouched. -/
def docGenerateSessionId (d : UserDoc) (nonce : Str) : UserDoc :=
  { d with acc := { d.acc with sessionId := some nonce } }

/-- The database visible to the auth service: the `User` and `Admin`
collections. -/
structure Db where
  users : List Account
  admins : List Account
deriving DecidableEq, Repr

/-! ### The Token Engine (authService.js)

A signed JWT is embedded as its payload together with the signing secret,
the audience it was signed for, and an expiry flag; `jwt.verify` succeeds
exactly when the secret (and, when the caller passes one, the audience)
matches and the token has not expired, and otherwise fails with the
distinguished `TokenExpiredError` / `JsonWebTokenError`. -/

/-- A decoded JWT payload.  `accountType` is the JS `type` field
(`'user'`/`'admin'`); `tokenType` is `'refresh'` on refresh tokens;
`purpose` is set on reset/verification tokens. -/
structure Payload where
  id : Nat
  email : Str
  sessionId : Option Str
  accountType : Str
  tokenType : Option Str
  purpose : Option Str
deriving DecidableEq, Repr

/-- A signed token as the jsonwebtoken library observes it. -/
structure Jwt where
  payload : Payload
  secret : Str
  audience : Str
  expired : Bool
deriving DecidableEq, Repr

/-- The two error kinds jsonwebtoken raises on verification. -/
inductive TokenErr where
  | expired
  | invalid
deriving DecidableEq, Repr

/-- The configured `JWT_ACCESS_SECRET`. -/
def accessTokenSecret : Str := "access-secret".toList

/-- The configured `JWT_REFRESH_SECRET`, distinct from the access secret. -/
def refreshTokenSecret : Str := "refresh-secret".toList

/-- Audience constant `uniapply-hub-users`. -/
def audienceUsers : Str := "uniapply-hub-users".toList

/-- Audience constant `uniapply-hub-reset`. -/
def audienceReset : Str := "uniapply-hub-reset".toList

/-- The `tokenType` tag of refresh tokens. -/
def refreshTag : Str := "refresh".toList

/-- The `purpose` tag of password-reset tokens. -/
def resetPurpose : Str := "password_reset".toList

/-- The `type` value for `User` documents. -/
def userTypeStr : Str := "user".toList

/-- The `type` value for `Admin` documents. -/
def adminTypeStr : Str := "admin".toList

/-- `jwt.sign(payload, secret, {audience})`: a fresh token verifying to its
payload. -/
def jwtSign (secret audience : Str) (p : Payload) : Jwt :=
  ⟨p, secret, audience, false⟩

/-- `jwt.verify(token, secret, {audience})`: signature and audience are
checked, then expiry. -/
def jwtVerify (secret audience : Str) (t : Jwt) : Except TokenErr Payload :=
  if t.secret = secret ∧ t.audience = audience then
    if t.expired then Except.error TokenErr.expired else Except.ok t.payload
  else Except.error TokenErr.invalid

/-- `jwt.verify(token, secret)` with no audience option, as the Request Gate
calls it: only the signature and expiry are checked. -/
def jwtVerifyNoAud (secret : Str) (t : Jwt) : Except TokenErr Payload :=
  if t.secret = secret then
    if t.expired then Except.error TokenErr.expired else Except.ok t.payload
  else Except.error TokenErr.invalid

/-- The error strings thrown by `authService`. -/
inductive AuthErr where
  | accessTokenExpired
  | invalidAccessToken
  | refreshTokenExpired
  | invalidRefreshToken
  | tokenVerificationFailed
  | userNotFound
  | sessionInvalid
  | resetTokenExpired
  | invalidResetToken
deriving DecidableEq, Repr

/-- Issued token pair; `expiresIn` is the default 15-minute access TTL in
seconds. -/
structure TokenPair where
  accessToken : Jwt
  refreshToken : Jwt
  expiresIn : Nat
deriving DecidableEq, Repr

/-- `authService.generateTokens(user)` (lines 38–78): both tokens embed the
account's current `sessionId`; the refresh token is additionally tagged
`tokenType = 'refresh'` and signed with the distinct refresh secret.
`atype` is `user.constructor.modelName.toLowerCase()`.  The remember-me
flag only lengthens the refresh TTL, which the expiry flag abstracts. -/
def generateTokens (u : Account) (atype : Str) : TokenPair :=
  let payload : Payload :=
    { id := u.id, email := u.email, sessionId := u.sessionId,
      accountType := atype, tokenType := none, purpose := none }
  { accessToken := jwtSign accessTokenSecret audienceUsers payload,
    refreshToken :=
      jwtSign refreshTokenSecret audienceUsers
        { payload with tokenType := some refreshTag },
    expiresIn := 900 }

/-- `authService.verifyAccessToken` (lines 86–101). -/
def verifyAccessToken (t : Jwt) : Except AuthErr Payload :=
  match jwtVerify accessTokenSecret audienceUsers t with
  | Except.ok p => Except.ok p
  | Except.error TokenErr.expired => Except.error AuthErr.accessTokenExpired
  | Except.error TokenErr.invalid => Except.error AuthErr.invalidAccessToken

/-- `authService.verifyRefreshToken` (lines 109–130).  Note that the inner
`throw new Error('INVALID_REFRESH_TOKEN')` on a wrong `tokenType` is caught
by the function's own handler, whose final branch re-throws it as
`TOKEN_VERIFICATION_FAILED`. -/
def verifyRefreshToken (t : Jwt) : Except AuthErr Payload :=
  match jwtVerify refreshTokenSecret audienceUsers t with
  | Except.ok p =>
      if p.tokenType = some refreshTag then Except.ok p
      else Except.error AuthErr.tokenVerificationFailed
  | Except.error TokenErr.expired => Except.error AuthErr.refreshTokenExpired
  | Except.error TokenErr.invalid => Except.error AuthErr.invalidRefreshToken

/-- `authService.verifyResetToken` (lines 222–241): reset tokens are signed
with the access secret but the distinct `uniapply-hub-reset` audience; a
wrong `purpose` lands in the catch-all `INVALID_RESET_TOKEN` branch. -/
def verifyResetToken (t : Jwt) : Except AuthErr Payload :=
  match jwtVerify accessTokenSecret audienceReset t with
  | Except.ok p =>
      if p.purpose = some resetPurpose then Except.ok p
      else Except.error AuthErr.invalidResetToken
  | Except.error TokenErr.expired => Except.error AuthErr.resetTokenExpired
  | Except.error TokenErr.invalid => Except.error AuthErr.invalidResetToken

/-- `authService.generateResetToken` (lines 197–214). -/
def generateResetToken (u : Account) : Jwt :=
  jwtSign accessTokenSecret audienceReset
    { id := u.id, email := u.email, sessionId := none,
      accountType := userTypeStr, tokenType := none,
      purpose := some resetPurpose }

/-- The collection `decoded.type === 'admin' ? Admin : User`. -/
def collectionFor (db : Db) (p : Payload) : List Account :=
  if p.accountType = adminTypeStr then db.admins else db.users

/-- Writing back the collection selected by the payload type. -/
def setCollectionFor (db : Db) (p : Payload) (coll : List Account) : Db :=
  if p.accountType = adminTypeStr then { db with admins := coll }
  else { db with users := coll }

/-- `authService.refreshTokens` (lines 138–160): verify the refresh token,
load the account by embedded id, fail `SESSION_INVALID` on a stale embedded
session id, otherwise rotate — assign a freshly generated session id
(`nonce`), save through the pre-save hook, and issue a new pair from the
saved document. -/
def refreshTokens (hashFn : Str → Str) (db : Db) (t : Jwt) (nonce : Str) :
    Except AuthErr (TokenPair × Db) :=
  match verifyRefreshToken t with
  | Except.error e => Except.error e
  | Except.ok p =>
      match findById (collectionFor db p) p.id with
      | none => Except.error AuthErr.userNotFound
      | some u =>
          if u.sessionId = p.sessionId then
            let d := docGenerateSessionId (loadDoc u) nonce
            let saved := userPreSaveHook hashFn d
            let db' := setCollectionFor db p
              (saveAccount (collectionFor db p) saved)
            let atype :=
              if p.accountType = adminTypeStr then adminTypeStr
              else userTypeStr
            Except.ok (generateTokens saved atype, db')
          else Except.error AuthErr.sessionInvalid

/-- `authService.revokeSession` (lines 168–182): the stored `sessionId` is
cleared to "no active session" and the document saved; a missing account is
a no-op success, so logout is idempotent. -/
def revokeSession (hashFn : Str → Str) (db : Db) (userId : Nat)
    (userType : Str) : Bool × Db :=
  let coll := if userType = adminTypeStr then db.admins else db.users
  match findById coll userId with
  | none => (true, db)
  | some u =>
      let d : UserDoc := ⟨{ u with sessionId := none }, false⟩
      let coll' := saveDoc hashFn coll d
      (true,
        if userType = adminTypeStr then { db with admins := coll' }
        else { db with users := coll' })

/-! ### The Request Gate (middleware/auth.js, lines 17–87)

The raw `authorization` header is either absent, present without the
`Bearer ` shape, or a bearer header carrying a token; the substring after
`Bearer ` is the token itself.  `jwt.verify` is called with the access
secret and no audience option.  Every failure is a 401 with a
distinguished error code; success attaches the resolved account. -/

/-- The `authorization` header of a protected request. -/
inductive AuthHeader where
  | missing
  | notBearer
  | bearer (t : Jwt)
deriving DecidableEq, Repr

/-- The error codes of the Request Gate's 401 responses. -/
inductive GateErr where
  | unauthorizedNoToken
  | invalidToken
  | tokenExpired
  | userNotFound
  | sessionInvalid
deriving DecidableEq, Repr

/-- `authenticateToken` (middleware/auth.js lines 17–87): extract the bearer
token, verify it, load the user through `User.findById`, compare the stored
`sessionId` with the token's embedded one, and on success attach the
account to the request. -/
def authenticateToken (db : Db) (h : AuthHeader) : Except GateErr Account :=
  match h with
  | AuthHeader.missing => Except.error GateErr.unauthorizedNoToken
  | AuthHeader.notBearer => Except.error GateErr.unauthorizedNoToken
  | AuthHeader.bearer t =>
      match jwtVerifyNoAud accessTokenSecret t with
      | Except.error TokenErr.expired => Except.error GateErr.tokenExpired
      | Except.error TokenErr.invalid => Except.error GateErr.invalidToken
      | Except.ok p =>
          match findById db.users p.id with
          | none => Except.error GateErr.userNotFound
          | some u =>
              if u.sessionId = p.sessionId then Except.ok u
              else Except.error GateErr.sessionInvalid

/-! ### The Auth Orchestrator login (userService.authenticateUser,
part_000 lines 468–501)

Both failure causes throw `Error('Invalid email or password')`, which
`handleServiceError` wraps into the single generic
`SERVICE_ERROR: Authentication failed: ...` shape; the response never says
which cause occurred. -/

/-- The observable error object produced by `handleServiceError`. -/
structure ServiceError where
  code : Str
  message : Str
deriving DecidableEq, Repr

/-- The wrapped error common to both login failure causes. -/
def invalidCredentialsError : ServiceError :=
  ⟨"SERVICE_ERROR".toList,
   "Authentication failed: Invalid email or password".toList⟩

/-- The wrapped error for missing credentials. -/
def missingCredentialsError : ServiceError :=
  ⟨"SERVICE_ERROR".toList,
   "Authentication failed: Email and password are required".toList⟩

/-- `userService.authenticateUser` (part_000 lines 468–501): look up the
account by (case-insensitively normalised) email, verify the password with
the bcrypt oracle via the user document method, and on success stamp a new
session id (`nonce`), persist it, and issue tokens from the saved document.
The second component is the store after the call. -/
def authenticateUser (compare : Str → Str → Except BcryptErr Bool)
    (hashFn : Str → Str) (users : List Account) (email pw : Str)
    (nonce : Str) :
    Except ServiceError (Account × TokenPair) × List Account :=
  if email.isEmpty || pw.isEmpty then
    (Except.error missingCredentialsError, users)
  else
    match findByEmail users email with
    | none => (Except.error invalidCredentialsError, users)
    | some u =>
        if userVerifyPassword compare pw u.passwordHash then
          let d := docGenerateSessionId (loadDoc u) nonce
          let saved := userPreSaveHook hashFn d
          (Except.ok (saved, generateTokens saved userTypeStr),
            saveAccount users saved)
        else (Except.error invalidCredentialsError, users)

/-! ### The password-reset HTTP handlers (routes/auth.js)

Both handlers are the source of record for the reset flow.  After the
express-validator checks, the `forgot-password` handler looks the account
up and answers 200, but its email-sending branch is the literal comment
`TODO: Implement actual email sending logic` guarding only a `console.log`;
the `reset-password` handler answers 200 above the literal comment
`TODO: Implement password reset token verification and password update`
without touching the token or the store. -/

/-- An HTTP response as far as the claims observe it. -/
structure ApiResponse where
  status : Nat
  success : Bool
deriving DecidableEq, Repr

/-- The `User` binding visible in routes/auth.js's module scope.  The file
requires only express, express-validator, userService, authService and
emailService — it never requires the User model — so the binding is
absent, and evaluating `User.findByEmail(email)` throws `ReferenceError`.
A present binding would be the store lookup. -/
def authRoutesUserBinding : Option (List Account → Str → Option Account) :=
  none

/-- `POST /api/auth/forgot-password` (routes/auth.js lines 254–292), after
input validation.  Output: the response, the deliveries handed to the
email-notification sink (recipient and reset token), and the console log
lines.  The handler's first statement resolves the module binding `User`:
because routes/auth.js never imports it, the `ReferenceError` is forwarded
by the handler's catch to the global error handler of app.js, whose default
branch answers 500 — the 200 response and the `console.log` below it are
unreachable, and nothing ever reaches the sink.  The `some` branch is the
body as written, reachable only under a binding the module does not
have. -/
def forgotPasswordRoute (db : Db) (email : Str) :
    ApiResponse × List (Str × Jwt) × List Str :=
  match authRoutesUserBinding with
  | none => (⟨500, false⟩, [], [])
  | some findByEmailFn =>
      match findByEmailFn db.users email with
      | some u =>
          (⟨200, true⟩, [],
            [("Password reset requested for user: ".toList ++ u.email)])
      | none => (⟨200, true⟩, [], [])

/-- `POST /api/auth/reset-password` (routes/auth.js lines 294–328): the
express-validator checks run (token non-empty; password length ≥ 8 with
lower, upper and digit), then the handler answers 200 unconditionally and
returns the store unchanged. -/
def resetPasswordRoute (db : Db) (token : Option Jwt) (newPassword : Str) :
    ApiResponse × Db :=
  if token.isNone then (⟨400, false⟩, db)
  else if newPassword.length < 8 || !newPassword.any isLowerC
      || !newPassword.any isUpperC || !newPassword.any isDigitC then
    (⟨400, false⟩, db)
  else (⟨200, true⟩, db)

/-! ### Helper lemmas about the store and the shuffle -/

/-- Updating the account found under `i` with a record of the same id makes
the update the record found under `i`. -/
theorem findById_saveAccount {s : List Account} {i : Nat} {u : Account}
    (a : Account) (h : findById s i = some u) (hid : a.id = u.id) :
    findById (saveAccount s a) i = some a := by
  induction s with
  | nil => simp [findById] at h
  | cons v rest ih =>
      simp only [findById, saveAccount, List.map_cons, List.find?_cons]
        at h ⊢
      cases hveq : (v.id == i) with
      | true =>
          simp only [hveq] at h
          have hv : v = u := by simpa using h
          subst hv
          rw [if_pos hid.symm]
          have hai : (a.id == i) = true := by rw [hid]; exact hveq
          simp only [hai]
      | false =>
          simp only [hveq] at h
          have hpred : (((if v.id = a.id then a else v) : Account).id == i)
              = false := by
            by_cases hva : v.id = a.id
            · rw [if_pos hva]
              show (a.id == i) = false
              rw [← hva]
              exact hveq
            · rw [if_neg hva]
              exact hveq
          rw [hpred]
          exact ih h

/-- A successful `find?` lookup satisfies its predicate: the account found
under `i` has id `i`. -/
theorem findById_id {s : List Account} {i : Nat} {u : Account}
    (h : findById s i = some u) : u.id = i := by
  have := List.find?_some h
  simpa using this

/-- Swapping preserves the list length. -/
theorem length_swapL (l : Str) (i j : Nat) :
    (swapL l i j).length = l.length := by
  simp [swapL]

/-- Swapping two in-range positions preserves `any`. -/
theorem any_swapL (p : Char → Bool) (l : Str) (i j : Nat)
    (hi : i < l.length) (hj : j < l.length) (h : l.any p = true) :
    (swapL l i j).any p = true := by
  rw [List.any_eq_true] at h ⊢
  obtain ⟨x, hx, hpx⟩ := h
  obtain ⟨k, hk⟩ := List.mem_iff_getElem?.mp hx
  refine ⟨x, ?_, hpx⟩
  apply List.mem_iff_getElem?.mpr
  unfold swapL
  by_cases hki : k = i
  · subst hki
    refine ⟨j, ?_⟩
    rw [List.getElem?_set_self (by simpa using hj)]
    simp [List.getD, hk]
  · by_cases hkj : k = j
    · subst hkj
      refine ⟨i, ?_⟩
      rw [List.getElem?_set_ne hki]
      rw [List.getElem?_set_self hi]
      simp [List.getD, hk]
    · refine ⟨k, ?_⟩
      rw [List.getElem?_set_ne (fun hc => hkj hc.symm)]
      rw [List.getElem?_set_ne (fun hc => hki hc.symm)]
      exact hk

/-- Generic invariant preservation along `foldl`. -/
theorem foldl_invariant {α β : Type} (P : α → Prop) (Q : β → Prop)
    (st : α → β → α) :
    ∀ (ks : List β) (a : α), (∀ k ∈ ks, Q k) →
      (∀ a k, P a → Q k → P (st a k)) → P a → P (ks.foldl st a)
  | [], a, _, _, h0 => h0
  | k :: ks, a, hks, hst, h0 =>
      foldl_invariant P Q st ks (st a k)
        (fun x hxm => hks x (List.mem_cons_of_mem _ hxm))
        hst (hst a k h0 (hks k (List.mem_cons_self _ _)))

/-- The Fisher–Yates shuffle preserves the length and every `any` fact. -/
theorem fisherYates_invariant (p : Char → Bool) (tape : Nat → Nat)
    (off : Nat) (l : Str) (h : l.any p = true) :
    (fisherYates tape off l).length = l.length ∧
      (fisherYates tape off l).any p = true := by
  unfold fisherYates
  refine foldl_invariant
    (fun acc => acc.length = l.length ∧ acc.any p = true)
    (fun k => k < l.length - 1) _ _ l ?_ ?_ ⟨rfl, h⟩
  · intro k hk
    exact List.mem_range.mp hk
  · intro acc k hP hQ
    have hlen : l.length - 1 - k < l.length := by omega
    have hj : tape (off + k) % (l.length - 1 - k + 1) < l.length := by
      have := Nat.mod_lt (tape (off + k))
        (y := l.length - 1 - k + 1) (by omega)
      omega
    constructor
    · rw [length_swapL]
      exact hP.1
    · exact any_swapL p acc _ _ (by rw [hP.1]; exact hlen)
        (by rw [hP.1]; exact hj) hP.2

/-- Reading back the collection written by `setCollectionFor`. -/
theorem collectionFor_set (db : Db) (p : Payload) (coll : List Account) :
    collectionFor (setCollectionFor db p coll) p = coll := by
  unfold collectionFor setCollectionFor
  by_cases hp : p.accountType = adminTypeStr <;> simp [hp]

/-- Rotating a freshly loaded document and running the pre-save hook does
not touch the password hash, because the hash-dirty flag is clear. -/
theorem rotate_saved (hashFn : Str → Str) (u : Account) (nonce : Str) :
    userPreSaveHook hashFn (docGenerateSessionId (loadDoc u) nonce) =
      { u with sessionId := some nonce } := by
  simp [userPreSaveHook, docGenerateSessionId, loadDoc]

/-- Dissection of a successful `refreshTokens` call: the refresh token
verified to some payload, the account was found with a matching session id,
and the store now holds the account with the freshly generated session
id. -/
theorem refreshTokens_ok_elim {hashFn : Str → Str} {db : Db} {t : Jwt}
    {nonce : Str} {pair : TokenPair} {db' : Db}
    (h : refreshTokens hashFn db t nonce = Except.ok (pair, db')) :
    ∃ p u, verifyRefreshToken t = Except.ok p ∧
      findById (collectionFor db p) p.id = some u ∧
      u.sessionId = p.sessionId ∧
      db' = setCollectionFor db p
        (saveAccount (collectionFor db p)
          { u with sessionId := some nonce }) := by
  simp only [refreshTokens] at h
  cases hv : verifyRefreshToken t with
  | error e =>
      simp only [hv] at h
      exact Except.noConfusion h
  | ok p =>
      simp only [hv] at h
      cases hf : findById (collectionFor db p) p.id with
      | none =>
          simp only [hf] at h
          exact Except.noConfusion h
      | some u =>
          simp only [hf] at h
          by_cases hsess : u.sessionId = p.sessionId
          · rw [if_pos hsess] at h
            refine ⟨p, u, rfl, hf, hsess, ?_⟩
            injection h with h3
            have hdb := congrArg Prod.snd h3
            simpa [rotate_saved] using hdb.symm
          · rw [if_neg hsess] at h
            exact absurd h (by simp)

/-! ### Concrete fixtures used by the witnesses and counterexamples -/

/-- A stored account with an active session. -/
def acct1 : Account :=
  { id := 1, email := "alice@example.com".toList,
    passwordHash := "bcrypt-hash-1".toList,
    sessionId := some "sid1".toList }

/-- A one-user store holding `acct1`. -/
def db1 : Db := { users := [acct1], admins := [] }

/-- The access token issued to `acct1`'s session. -/
def accessTok1 : Jwt := (generateTokens acct1 userTypeStr).accessToken

/-- The refresh token issued to `acct1`'s session. -/
def refreshTok1 : Jwt := (generateTokens acct1 userTypeStr).refreshToken

/-- The same account after its session was rotated away from `sid1`. -/
def acctStale : Account := { acct1 with sessionId := some "sid2".toList }

/-- A store in which `refreshTok1`'s embedded session id is stale. -/
def dbStale : Db := { users := [acctStale], admins := [] }

/-! ### Claim theorems -/

/-- C1: refresh fails with `SESSION_INVALID` whenever the stored session id
differs from the token's embedded one; after a successful refresh the
stored session id is the freshly generated nonce, so replaying the same
refresh token — whose embedded id can no longer match the fresh nonce —
fails with `SESSION_INVALID`. -/
theorem refresh_session_check_and_rotation (hashFn hashFn' : Str → Str)
    (db : Db) (t : Jwt) (nonce nonce' : Str) :
    (∀ p u, verifyRefreshToken t = Except.ok p →
      findById (collectionFor db p) p.id = some u →
      u.sessionId ≠ p.sessionId →
      refreshTokens hashFn db t nonce = Except.error AuthErr.sessionInvalid)
    ∧ (∀ p pair db', verifyRefreshToken t = Except.ok p →
        refreshTokens hashFn db t nonce = Except.ok (pair, db') →
        ∃ u, findById (collectionFor db p) p.id = some u ∧
          findById (collectionFor db' p) p.id =
            some { u with sessionId := some nonce })
    ∧ (∀ pair db', refreshTokens hashFn db t nonce = Except.ok (pair, db') →
        (∀ p, verifyRefreshToken t = Except.ok p →
          some nonce ≠ p.sessionId) →
        refreshTokens hashFn' db' t nonce' =
          Except.error AuthErr.sessionInvalid) := by
  refine ⟨?_, ?_, ?_⟩
  · intro p u hv hf hne
    simp only [refreshTokens, hv, hf]
    rw [if_neg hne]
  · intro p pair db' hv hok
    obtain ⟨p', u, hv', hf, _, hdb'⟩ := refreshTokens_ok_elim hok
    rw [hv] at hv'
    injection hv' with hp
    subst hp
    refine ⟨u, hf, ?_⟩
    rw [hdb', collectionFor_set]
    exact findById_saveAccount _ hf rfl
  · intro pair db' hok hfresh
    obtain ⟨p, u, hv, hf, _, hdb'⟩ := refreshTokens_ok_elim hok
    have hf' : findById (collectionFor db' p) p.id =
        some { u with sessionId := some nonce } := by
      rw [hdb', collectionFor_set]
      exact findById_saveAccount _ hf rfl
    simp only [refreshTokens, hv, hf']
    rw [if_neg ?_]
    show ({ u with sessionId := some nonce } : Account).sessionId
      ≠ p.sessionId
    exact hfresh p hv

/-- Concrete instance of C1: with a stale stored session the refresh fails,
and after a successful refresh the very same refresh token fails. -/
theorem refresh_session_check_and_rotation_witness :
    refreshTokens (fun s => s) dbStale refreshTok1 "n1".toList =
        Except.error AuthErr.sessionInvalid ∧
      refreshTokens (fun s => s)
          { users := [{ acct1 with sessionId := some "n1".toList }],
            admins := [] }
          refreshTok1 "n2".toList =
        Except.error AuthErr.sessionInvalid := by
  constructor
  · exact (refresh_session_check_and_rotation (fun s => s) (fun s => s)
      dbStale refreshTok1 "n1".toList "n1".toList).1
      refreshTok1.payload acctStale (by decide) (by decide) (by decide)
  · refine (refresh_session_check_and_rotation (fun s => s) (fun s => s)
      db1 refreshTok1 "n1".toList "n2".toList).2.2
      (generateTokens { acct1 with sessionId := some "n1".toList }
        userTypeStr)
      { users := [{ acct1 with sessionId := some "n1".toList }],
        admins := [] }
      (by decide) ?_
    intro p hp
    have hc : verifyRefreshToken refreshTok1 =
        Except.ok refreshTok1.payload := by decide
    rw [hc] at hp
    injection hp with hpp
    subst hpp
    decide

/-- C7: every password of exactly 8 characters containing an uppercase
letter, a lowercase letter and a digit, matching no forbidden pattern and
triggering no context penalty scores at least 60 and is valid; and in
general `isValid` is true exactly when the error list is empty and the
clamped score is at least 60. -/
theorem scoreStrength_boundary_and_validity :
    (∀ (pw : Str) (info : UserInfo), pw.length = 8 →
      pw.any isUpperC = true → pw.any isLowerC = true →
      pw.any isDigitC = true → forbiddenPattern pw = false →
      emailPenaltyHit pw info = false → nameHit pw info.firstName = false →
      nameHit pw info.lastName = false →
      60 ≤ (validatePasswordStrength pw info).score ∧
        (validatePasswordStrength pw info).isValid = true)
    ∧ (∀ (pw : Str) (info : UserInfo),
        (validatePasswordStrength pw info).isValid =
          ((validatePasswordStrength pw info).errors.isEmpty &&
            decide (60 ≤ (validatePasswordStrength pw info).score))) := by
  constructor
  · intro pw info hlen hu hl hd hforb he hf hln
    have hne : ¬(pw.isEmpty = true) := by
      intro hc
      rw [List.isEmpty_iff] at hc
      rw [hc] at hlen
      simp at hlen
    have hscore : 65 ≤ rawScore pw info ∧ rawScore pw info ≤ 100 := by
      unfold rawScore
      rw [hlen]
      simp only [hu, hl, hd, he, hf, hln]
      norm_num
      split <;> split <;> omega
    have herr : strengthErrors pw = [] := by
      unfold strengthErrors
      rw [hlen]
      simp [hu, hl, hd, hforb]
    unfold validatePasswordStrength
    rw [if_neg hne]
    simp only [herr]
    constructor
    · show (60 : Int) ≤ max 0 (min 100 (rawScore pw info))
      omega
    · show (List.isEmpty [] &&
        decide (60 ≤ max 0 (min 100 (rawScore pw info)))) = true
      simp only [List.isEmpty, Bool.true_and, decide_eq_true_eq]
      omega
  · intro pw info
    by_cases hne : pw.isEmpty = true
    · unfold validatePasswordStrength
      rw [if_pos hne]
      simp
    · unfold validatePasswordStrength
      rw [if_neg hne]

/-- Concrete instance of C7 at the password "Abcdef12". -/
theorem scoreStrength_boundary_witness :
    60 ≤ (validatePasswordStrength "Abcdef12".toList noInfo).score ∧
      (validatePasswordStrength "Abcdef12".toList noInfo).isValid = true :=
  scoreStrength_boundary_and_validity.1 "Abcdef12".toList noInfo
    (by decide) (by decide) (by decide) (by decide) (by decide) (by decide)
    (by decide) (by decide)

/-- C2: the Request Gate resolves every protected request to exactly one
outcome, in source order: `UNAUTHORIZED` for a missing or non-bearer
header, `TOKEN_EXPIRED` / `INVALID_TOKEN` as distinguished by token
verification, `USER_NOT_FOUND` for an unknown embedded identity,
`SESSION_INVALID` for a stale embedded session id, and otherwise the
resolved account is attached. -/
theorem requestGate_outcomes (db : Db) (h : AuthHeader) :
    (h = AuthHeader.missing →
      authenticateToken db h = Except.error GateErr.unauthorizedNoToken)
    ∧ (h = AuthHeader.notBearer →
      authenticateToken db h = Except.error GateErr.unauthorizedNoToken)
    ∧ (∀ t, h = AuthHeader.bearer t →
        jwtVerifyNoAud accessTokenSecret t = Except.error TokenErr.expired →
        authenticateToken db h = Except.error GateErr.tokenExpired)
    ∧ (∀ t, h = AuthHeader.bearer t →
        jwtVerifyNoAud accessTokenSecret t = Except.error TokenErr.invalid →
        authenticateToken db h = Except.error GateErr.invalidToken)
    ∧ (∀ t p, h = AuthHeader.bearer t →
        jwtVerifyNoAud accessTokenSecret t = Except.ok p →
        findById db.users p.id = none →
        authenticateToken db h = Except.error GateErr.userNotFound)
    ∧ (∀ t p u, h = AuthHeader.bearer t →
        jwtVerifyNoAud accessTokenSecret t = Except.ok p →
        findById db.users p.id = some u → u.sessionId ≠ p.sessionId →
        authenticateToken db h = Except.error GateErr.sessionInvalid)
    ∧ (∀ t p u, h = AuthHeader.bearer t →
        jwtVerifyNoAud accessTokenSecret t = Except.ok p →
        findById db.users p.id = some u → u.sessionId = p.sessionId →
        authenticateToken db h = Except.ok u) := by
  refine ⟨?_, ?_, ?_, ?_, ?_, ?_, ?_⟩
  · intro hh
    subst hh
    rfl
  · intro hh
    subst hh
    rfl
  · intro t hh hv
    subst hh
    simp only [authenticateToken, hv]
  · intro t hh hv
    subst hh
    simp only [authenticateToken, hv]
  · intro t p hh hv hf
    subst hh
    simp only [authenticateToken, hv, hf]
  · intro t p u hh hv hf hne
    subst hh
    simp only [authenticateToken, hv, hf]
    rw [if_neg hne]
  · intro t p u hh hv hf heq
    subst hh
    simp only [authenticateToken, hv, hf]
    rw [if_pos heq]

/-- Concrete instance of C2: the stale-session arm of the Request Gate. -/
theorem requestGate_outcomes_witness :
    authenticateToken dbStale (AuthHeader.bearer accessTok1) =
      Except.error GateErr.sessionInvalid :=
  (requestGate_outcomes dbStale (AuthHeader.bearer accessTok1)).2.2.2.2.2.1
    accessTok1 accessTok1.payload acctStale rfl (by decide) (by decide)
    (by decide)

/-- C3: after logout clears the stored session id, the access token issued
for the pre-logout session — still carrying a valid signature and not
expired — is rejected by the Request Gate with `SESSION_INVALID`. -/
theorem logout_invalidates_access (hashFn : Str → Str) (db : Db) (uid : Nat)
    (u : Account) (s : Str) (hu : findById db.users uid = some u)
    (hs : u.sessionId = some s) :
    authenticateToken (revokeSession hashFn db uid userTypeStr).2
      (AuthHeader.bearer (generateTokens u userTypeStr).accessToken) =
      Except.error GateErr.sessionInvalid := by
  have hut : ¬(userTypeStr = adminTypeStr) := by decide
  have hret : (revokeSession hashFn db uid userTypeStr).2 =
      { db with users :=
          saveAccount db.users { u with sessionId := none } } := by
    simp only [revokeSession, hu, if_neg hut]
    simp [saveDoc, userPreSaveHook]
  have hu' : findById db.users u.id = some u := by
    rw [findById_id hu]
    exact hu
  have hfind : findById
      (saveAccount db.users { u with sessionId := none }) u.id =
      some { u with sessionId := none } :=
    findById_saveAccount _ hu' rfl
  have hverify : jwtVerifyNoAud accessTokenSecret
      (generateTokens u userTypeStr).accessToken =
      Except.ok ⟨u.id, u.email, u.sessionId, userTypeStr, none, none⟩ := by
    simp [generateTokens, jwtSign, jwtVerifyNoAud]
  rw [hret]
  simp only [authenticateToken, hverify, hfind]
  rw [if_neg ?_]
  show ({ u with sessionId := none } : Account).sessionId ≠ u.sessionId
  rw [hs]
  simp

/-- Concrete instance of C3 at the fixture account. -/
theorem logout_invalidates_access_witness :
    authenticateToken
        (revokeSession (fun s => s) db1 1 userTypeStr).2
        (AuthHeader.bearer (generateTokens acct1 userTypeStr).accessToken) =
      Except.error GateErr.sessionInvalid :=
  logout_invalidates_access (fun s => s) db1 1 acct1 "sid1".toList
    (by decide) (by decide)

/-- C10: session operations do not disturb the credential.  The update a
successful refresh persists is exactly the loaded account with a new
`sessionId` — for an arbitrary hashing function `hashFn`, so the pre-save
hook demonstrably never re-hashes the stored `passwordHash` (the hook fires
only on a modified `passwordHash`, and rotation never marks it) — and
logout likewise persists exactly the loaded account with `sessionId`
cleared. -/
theorem session_ops_preserve_credential (hashFn : Str → Str) (db : Db)
    (t : Jwt) (nonce : Str) :
    (∀ p u pair db', verifyRefreshToken t = Except.ok p →
      findById (collectionFor db p) p.id = some u →
      refreshTokens hashFn db t nonce = Except.ok (pair, db') →
      findById (collectionFor db' p) p.id =
        some { u with sessionId := some nonce })
    ∧ (∀ (uid : Nat) (u : Account) (r : Bool) (db' : Db),
        findById db.users uid = some u →
        revokeSession hashFn db uid userTypeStr = (r, db') →
        findById db'.users uid = some { u with sessionId := none }) := by
  constructor
  · intro p u pair db' hv hf hok
    obtain ⟨p', u', hv', hf', _, hdb'⟩ := refreshTokens_ok_elim hok
    rw [hv] at hv'
    injection hv' with hpp
    subst hpp
    rw [hf] at hf'
    injection hf' with huu
    subst huu
    rw [hdb', collectionFor_set]
    exact findById_saveAccount _ hf rfl
  · intro uid u r db' hu hrev
    have hut : ¬(userTypeStr = adminTypeStr) := by decide
    have h2 : (revokeSession hashFn db uid userTypeStr).2 = db' := by
      rw [hrev]
    have hdb' : db' =
        { db with users :=
            saveAccount db.users { u with sessionId := none } } := by
      rw [← h2]
      simp only [revokeSession, hu, if_neg hut]
      simp [saveDoc, userPreSaveHook]
    rw [hdb']
    exact findById_saveAccount _ hu rfl

/-- Concrete instance of C10: refresh and logout on the fixture store leave
the password hash in place even for a hashing function that would visibly
mangle it. -/
theorem session_ops_preserve_credential_witness :
    findById
        (collectionFor
          { users := [{ acct1 with sessionId := some "n1".toList }],
            admins := [] }
          refreshTok1.payload)
        refreshTok1.payload.id =
      some { acct1 with sessionId := some "n1".toList } ∧
    findById (revokeSession (fun s => 'X' :: s) db1 1 userTypeStr).2.users
        1 = some { acct1 with sessionId := none } := by
  constructor
  · exact (session_ops_preserve_credential (fun s => 'X' :: s) db1
      refreshTok1 "n1".toList).1 refreshTok1.payload acct1
      (generateTokens { acct1 with sessionId := some "n1".toList }
        userTypeStr)
      { users := [{ acct1 with sessionId := some "n1".toList }],
        admins := [] }
      (by decide) (by decide) (by decide)
  · exact (session_ops_preserve_credential (fun s => 'X' :: s) db1
      refreshTok1 "n1".toList).2 1 acct1 true
      (revokeSession (fun s => 'X' :: s) db1 1 userTypeStr).2
      (by decide) (by decide)

/-- C6: the two login failure causes — unknown email and failed password
verification — both surface as the same wrapped
`SERVICE_ERROR: Authentication failed: Invalid email or password` value, so
two runs differing only in which cause occurred are observationally
identical. -/
theorem login_failures_indistinguishable
    (compare : Str → Str → Except BcryptErr Bool) (hashFn : Str → Str)
    (users : List Account) (email pw nonce : Str) :
    (email.isEmpty = false → pw.isEmpty = false →
      findByEmail users email = none →
      (authenticateUser compare hashFn users email pw nonce).1 =
        Except.error invalidCredentialsError)
    ∧ (∀ u, email.isEmpty = false → pw.isEmpty = false →
        findByEmail users email = some u →
        userVerifyPassword compare pw u.passwordHash = false →
        (authenticateUser compare hashFn users email pw nonce).1 =
          Except.error invalidCredentialsError) := by
  constructor
  · intro he hp hfind
    simp only [authenticateUser, he, hp, hfind]
    rfl
  · intro u he hp hfind hbad
    simp only [authenticateUser, he, hp, hfind, hbad]
    rfl

/-- Concrete instance of C6: an unknown email and a wrong password for a
known email produce the same observable error. -/
theorem login_failures_indistinguishable_witness :
    (authenticateUser (fun _ _ => Except.ok false) (fun s => s) [acct1]
        "ghost@nowhere.test".toList "Pw1".toList "n1".toList).1 =
        Except.error invalidCredentialsError ∧
      (authenticateUser (fun _ _ => Except.ok false) (fun s => s) [acct1]
        "alice@example.com".toList "Pw1".toList "n1".toList).1 =
        Except.error invalidCredentialsError := by
  constructor
  · exact (login_failures_indistinguishable (fun _ _ => Except.ok false)
      (fun s => s) [acct1] "ghost@nowhere.test".toList "Pw1".toList
      "n1".toList).1 (by decide) (by decide) (by decide)
  · exact (login_failures_indistinguishable (fun _ _ => Except.ok false)
      (fun s => s) [acct1] "alice@example.com".toList "Pw1".toList
      "n1".toList).2 acct1 (by decide) (by decide) (by decide) (by decide)

/-- C9: `verifyPassword` is a total boolean function (it can only return a
`Bool`, never an exception), and it returns `false` on every malformed
input — falsy or non-string password or hash — and on every
hashing-library fault. -/
theorem verifyPassword_total_safe
    (compare : Str → Str → Except BcryptErr Bool) (p h : JsVal) :
    ((truthy p = false ∨ truthy h = false ∨ isStringVal p = false ∨
        isStringVal h = false) → verifyPassword compare p h = false)
    ∧ (∀ e, compare (strOf p) (strOf h) = Except.error e →
        verifyPassword compare p h = false) := by
  constructor
  · intro hbad
    unfold verifyPassword
    rcases hbad with hb | hb | hb | hb <;> simp [hb]
  · intro e he
    unfold verifyPassword
    by_cases h1 : (!truthy p || !truthy h) = true
    · rw [if_pos h1]
    · rw [if_neg h1]
      by_cases h2 : (!isStringVal p || !isStringVal h) = true
      · rw [if_pos h2]
      · rw [if_neg h2]
        rw [he]

/-- Concrete instance of C9: a non-string password, an empty hash, and a
faulting bcrypt library all return `false`. -/
theorem verifyPassword_total_safe_witness :
    verifyPassword (fun _ _ => Except.ok true) (JsVal.num 5)
        (JsVal.str "h".toList) = false ∧
      verifyPassword (fun _ _ => Except.ok true)
        (JsVal.str "pw".toList) (JsVal.str []) = false ∧
      verifyPassword (fun _ _ => Except.error BcryptErr.fault)
        (JsVal.str "pw".toList) (JsVal.str "h".toList) = false := by
  refine ⟨?_, ?_, ?_⟩
  · exact (verifyPassword_total_safe (fun _ _ => Except.ok true)
      (JsVal.num 5) (JsVal.str "h".toList)).1
      (Or.inr (Or.inr (Or.inl (by decide))))
  · exact (verifyPassword_total_safe (fun _ _ => Except.ok true)
      (JsVal.str "pw".toList) (JsVal.str [])).1
      (Or.inr (Or.inl (by decide)))
  · exact (verifyPassword_total_safe
      (fun _ _ => Except.error BcryptErr.fault)
      (JsVal.str "pw".toList) (JsVal.str "h".toList)).2
      BcryptErr.fault (by decide)

/-- C4 evaluation: the deployed reset-password handler is a stub.  For a
token that the Token Engine itself rejects as an invalid reset token
(here an access token, which carries the wrong audience and no
`password_reset` purpose) and a well-formed new password, the route answers
200 success and leaves the store — password hash and session id included —
completely unchanged, instead of failing with the token error and instead
of updating the credential. -/
theorem resetPassword_stub_ignores_token :
    verifyResetToken accessTok1 = Except.error AuthErr.invalidResetToken ∧
      resetPasswordRoute db1 (some accessTok1) "Abcdefg1".toList =
        (⟨200, true⟩, db1) := by
  constructor
  · decide
  · decide

/-- C5 evaluation: the deployed forgot-password handler crashes on its
`User.findByEmail` reference — routes/auth.js has no `User` import — so
every request, for an existing account (the fixture email is in the store)
and for a non-existent one alike, is answered 500 by the global error
handler; no success response is ever returned and nothing is ever handed to
the email-notification sink. -/
theorem forgotPassword_crashes_sends_nothing :
    findByEmail db1.users "alice@example.com".toList = some acct1 ∧
      forgotPasswordRoute db1 "alice@example.com".toList =
        (⟨500, false⟩, [], []) ∧
      forgotPasswordRoute db1 "ghost@nowhere.test".toList =
        (⟨500, false⟩, [], []) := by
  refine ⟨?_, ?_, ?_⟩
  · decide
  · decide
  · decide

/-- An in-bounds `getD` pick from a list all of whose members satisfy `p`
satisfies `p`. -/
theorem getD_pred (l : Str) (p : Char → Bool)
    (hall : ∀ c ∈ l, p c = true) (k : Nat) (hk : k < l.length) :
    p (l.getD k 'a') = true := by
  rw [List.getD_eq_getElem?_getD, List.getElem?_eq_getElem hk]
  exact hall _ (List.getElem_mem hk)

/-- Any password of admissible length with the three required classes, no
forbidden pattern and an empty scoring context is accepted: the errors list
is empty and the clamped score is at least 65. -/
theorem isValid_noInfo (pw : Str) (h8 : 8 ≤ pw.length)
    (h128 : pw.length ≤ 128) (hu : pw.any isUpperC = true)
    (hl : pw.any isLowerC = true) (hd : pw.any isDigitC = true)
    (hforb : forbiddenPattern pw = false) :
    (validatePasswordStrength pw noInfo).isValid = true := by
  have hne : ¬(pw.isEmpty = true) := by
    intro hc
    rw [List.isEmpty_iff] at hc
    rw [hc] at h8
    simp at h8
  have hsc : 65 ≤ rawScore pw noInfo ∧ rawScore pw noInfo ≤ 100 := by
    unfold rawScore
    have he : emailPenaltyHit pw noInfo = false := rfl
    have hf1 : nameHit pw noInfo.firstName = false := rfl
    have hf2 : nameHit pw noInfo.lastName = false := rfl
    simp only [hu, hl, hd, he, hf1, hf2, Bool.false_eq_true, if_false,
      if_true]
    rw [if_pos h8]
    constructor <;> (split <;> split <;> split <;> split <;> omega)
  have herr : strengthErrors pw = [] := by
    unfold strengthErrors
    rw [if_neg (by omega : ¬pw.length < 8),
      if_neg (by omega : ¬pw.length > 128)]
    simp [hu, hl, hd, hforb]
  unfold validatePasswordStrength
  rw [if_neg hne]
  simp only [herr]
  show (List.isEmpty [] &&
    decide (60 ≤ max 0 (min 100 (rawScore pw noInfo)))) = true
  simp only [List.isEmpty, Bool.true_and, decide_eq_true_eq]
  omega

/-- C8 (amended): every random outcome of `generate` at length 16 is a
16-character password containing at least one character from each of the
four requested classes, and whenever the produced password matches no
forbidden pattern — which the generator does not ensure — the scorer
accepts it with `valid = true`. -/
theorem generate16_classes_and_validity (tape : Nat → Nat) (pw : Str)
    (hg : generateSecurePassword tape 16 = Except.ok pw) :
    pw.length = 16 ∧ pw.any isLowerC = true ∧ pw.any isUpperC = true ∧
      pw.any isDigitC = true ∧
      pw.any (fun c => genSpecials.contains c) = true ∧
      (forbiddenPattern pw = false →
        (validatePasswordStrength pw noInfo).isValid = true) := by
  simp only [generateSecurePassword] at hg
  rw [if_neg (by decide)] at hg
  injection hg with hpw
  have hfl : (genRequiredChars tape ++ genFills tape 16).length = 16 := by
    simp [genRequiredChars, genFills]
  have hmem0 : genLower.getD (tape 0 % genLower.length) 'a'
      ∈ genRequiredChars tape ++ genFills tape 16 :=
    List.mem_append_left _ (by simp [genRequiredChars])
  have hmem1 : genUpper.getD (tape 1 % genUpper.length) 'a'
      ∈ genRequiredChars tape ++ genFills tape 16 :=
    List.mem_append_left _ (by simp [genRequiredChars])
  have hmem2 : genDigits.getD (tape 2 % genDigits.length) 'a'
      ∈ genRequiredChars tape ++ genFills tape 16 :=
    List.mem_append_left _ (by simp [genRequiredChars])
  have hmem3 : genSpecials.getD (tape 3 % genSpecials.length) 'a'
      ∈ genRequiredChars tape ++ genFills tape 16 :=
    List.mem_append_left _ (by simp [genRequiredChars])
  have hL : (genRequiredChars tape ++ genFills tape 16).any isLowerC
      = true :=
    List.any_eq_true.mpr ⟨_, hmem0, getD_pred genLower isLowerC (by decide)
      _ (Nat.mod_lt _ (by decide))⟩
  have hU : (genRequiredChars tape ++ genFills tape 16).any isUpperC
      = true :=
    List.any_eq_true.mpr ⟨_, hmem1, getD_pred genUpper isUpperC (by decide)
      _ (Nat.mod_lt _ (by decide))⟩
  have hD : (genRequiredChars tape ++ genFills tape 16).any isDigitC
      = true :=
    List.any_eq_true.mpr ⟨_, hmem2, getD_pred genDigits isDigitC (by decide)
      _ (Nat.mod_lt _ (by decide))⟩
  have hS : (genRequiredChars tape ++ genFills tape 16).any
      (fun c => genSpecials.contains c) = true :=
    List.any_eq_true.mpr ⟨_, hmem3, getD_pred genSpecials
      (fun c => genSpecials.contains c) (by decide)
      _ (Nat.mod_lt _ (by decide))⟩
  obtain ⟨hlen', hL'⟩ := fisherYates_invariant isLowerC tape 16 _ hL
  obtain ⟨_, hU'⟩ := fisherYates_invariant isUpperC tape 16 _ hU
  obtain ⟨_, hD'⟩ := fisherYates_invariant isDigitC tape 16 _ hD
  obtain ⟨_, hS'⟩ := fisherYates_invariant
    (fun c => genSpecials.contains c) tape 16 _ hS
  subst hpw
  have hlen16 : (fisherYates tape 16
      (genRequiredChars tape ++ genFills tape 16)).length = 16 := by
    rw [hlen', hfl]
  refine ⟨hlen16, hL', hU', hD', hS', ?_⟩
  intro hforb
  exact isValid_noInfo _ (by omega) (by omega) hU' hL' hD' hforb

/-- A reachable randomness tape: the class picks take index 0, every fill
draws the combined-charset index of `!`, and every shuffle draw returns the
current position (a self-swap, which Fisher–Yates permits). -/
def cexTape : Nat → Nat :=
  fun i => if i < 4 then 0 else if i < 16 then 54 else 31 - i

/-- C8 counterexample: the random outcome `cexTape` makes
`generate({length:16})` return `aA2!!!!!!!!!!!!!`, which the scorer rejects
(thirteen consecutive `!` match the forbidden pattern `(.)\1{3,}`), so
generated passwords do not always pass `scoreStrength`. -/
theorem generate16_not_always_valid :
    generateSecurePassword cexTape 16 =
        Except.ok ("aA2!!!!!!!!!!!!!".toList) ∧
      (validatePasswordStrength "aA2!!!!!!!!!!!!!".toList noInfo).isValid
        = false := by
  constructor
  · decide
  · decide

/-- A tape whose fills are twelve distinct letters and whose shuffle draws
are again self-swaps. -/
def plainTape : Nat → Nat := fun i => if i < 16 then i else 31 - i

/-- Concrete instance of the amended C8: the outcome `plainTape` yields the
password `aB4$efghjkmnpqrs`, with all four classes present and accepted by
the scorer. -/
theorem generate16_classes_and_validity_witness :
    ("aB4$efghjkmnpqrs".toList.length = 16 ∧
      "aB4$efghjkmnpqrs".toList.any isLowerC = true) ∧
      (validatePasswordStrength "aB4$efghjkmnpqrs".toList noInfo).isValid
        = true := by
  have h := generate16_classes_and_validity plainTape
    "aB4$efghjkmnpqrs".toList (by decide)
  exact ⟨⟨h.1, h.2.1⟩, h.2.2.2.2.2 (by decide)⟩

end Enrollify
